import Mathlib

/-!
Verification of the tag-compilation front-end: the `lorem` and `comment`
statement implementations (src/ext/django/statements/lorem.go and
comment.go) over a shallow embedding.  The Parser / Token / Renderer /
registry collaborators live outside src/ and are modelled from the spec
(sections 3, 4.1, 4.2, 4.3, 6); the two tag modules themselves are
translated directly from the Go source.
-/

namespace Gonja

/-- Modelled from the spec: token kinds of the external lexer ("integer,
bare-name, string, symbol, end-marker").  `endTag` stands for a tag-close
marker such as the one `skipUntil` searches for. -/
inductive TokenKind where
  | integer
  | name
  | str
  | symbol
  | endTag
  deriving DecidableEq

/-- Modelled from the spec: an immutable lexer token with kind, raw value
and source position (line, column). -/
structure Token where
  kind : TokenKind
  val : String
  line : Nat
  col : Nat
  deriving DecidableEq

/-- Error kinds of section 7 of the spec. -/
inductive ErrorKind where
  | malformedArguments
  | unterminatedBlock
  | unknownMode
  | duplicateRegistration
  deriving DecidableEq

/-- A positioned error: kind, human-readable message, and the source
position (line, column) of the token where the problem was detected, when
one exists. -/
structure TemplateError where
  kind : ErrorKind
  message : String
  position : Option (Nat × Nat)
  deriving DecidableEq

/-- Modelled from the spec: a Parser is a cursor (index) over a token
stream; a sub-parser is such a cursor bounded to exactly one tag's
argument span, represented here by `tokens` holding exactly that span. -/
structure Parser where
  tokens : List Token
  idx : Nat
  deriving DecidableEq

/-- Modelled from the spec: `current()` — peek at the current token
without consuming; none when the cursor is at its bound. -/
def Parser.Current (p : Parser) : Option Token :=
  p.tokens.get? p.idx

def Parser.advance (p : Parser) : Parser :=
  { p with idx := p.idx + 1 }

/-- Modelled from the spec: `atEnd()` — true iff the cursor has reached
the bound (no more tokens). -/
def Parser.End (p : Parser) : Bool :=
  p.Current.isNone

/-- The (line, column) of the current token, when one exists. -/
def Parser.currentPos (p : Parser) : Option (Nat × Nat) :=
  p.Current.map (fun t => (t.line, t.col))

/-- Modelled from the spec: `error(message, cause)` builds a positioned
error carrying the current token's line/column and the message.  The spec
(section 7) classifies every tag-argument grammar violation reported this
way as MalformedArguments; the `cause` argument is always nil at the call
sites in src/ and is omitted. -/
def Parser.Error (p : Parser) (message : String) : TemplateError :=
  { kind := .malformedArguments, message := message, position := p.currentPos }

/-- Modelled from the spec: `match(kind)` — consume and return the current
token if its kind matches, else leave the cursor unchanged and return
none.  State passing replaces the Go mutation of the parser. -/
def Parser.Match (p : Parser) (k : TokenKind) : Option Token × Parser :=
  match p.Current with
  | some t => if t.kind = k then (some t, p.advance) else (none, p)
  | none => (none, p)

/-- Modelled from the spec: `matchName(literal)` — as `match`, but only
for a bare-name token whose text equals the literal exactly. -/
def Parser.MatchName (p : Parser) (literal : String) : Option Token × Parser :=
  match p.Current with
  | some t => if t.kind = .name ∧ t.val = literal then (some t, p.advance) else (none, p)
  | none => (none, p)

/-- Is `t` a tag-close marker whose name equals `marker`? -/
def isEndTagFor (marker : String) (t : Token) : Bool :=
  decide (t.kind = .endTag ∧ t.val = marker)

/-- Modelled from the spec: `skipUntil(markerName)` — advance the outer
token stream past all tokens until a tag-close marker named `markerName`
is found, discarding everything in between; fail (UnterminatedBlock) if
end of input is reached first, with the error positioned at the point
skipping began. -/
def Parser.SkipUntil (p : Parser) (marker : String) : Except TemplateError Parser :=
  match (p.tokens.drop p.idx).findIdx? (isEndTagFor marker) with
  | some j => .ok { p with idx := p.idx + j + 1 }
  | none =>
      .error { kind := .unterminatedBlock,
               message := "unterminated block, missing end marker " ++ marker,
               position := p.currentPos }

/-- The numeric value of one decimal digit character, if it is one. -/
def charDigit (c : Char) : Option Nat :=
  if c.isDigit then some (c.toNat - Char.toNat '0') else none

/-- Read a non-empty all-digit character list as a natural number. -/
def natOfDigits (cs : List Char) : Option Nat :=
  cs.foldl
    (fun acc c =>
      match acc, charDigit c with
      | some n, some d => some (n * 10 + d)
      | _, _ => none)
    (if cs.isEmpty then none else some 0)

/-- Modelled from the spec: `exec.AsValue(countToken.Val).Integer()` — the
matched token's integer value; the token kind already guarantees numeric
(non-negative decimal) lexical form, so the total fallback 0 is
unreachable from the parser. -/
def tokenInteger (t : Token) : Int :=
  match natOfDigits t.val.data with
  | some n => Int.ofNat n
  | none => 0

/-- The LoremStmt node of lorem.go: position token, paragraph/word count,
method ("w" = words, "p" = HTML paragraphs, "b" = plain-text, default
"b"), and the `random` flag. -/
structure LoremStmt where
  Location : Option Token
  count : Int
  method : String
  random : Bool
  deriving DecidableEq

def LoremStmt.Position (stmt : LoremStmt) : Option Token :=
  stmt.Location

/-- The CommentStmt node of comment.go: it holds only the position of the
opening tag — no body content. -/
structure CommentStmt where
  Location : Option Token
  deriving DecidableEq

def CommentStmt.Position (stmt : CommentStmt) : Option Token :=
  stmt.Location

/-- Modelled from the spec: a small fixed word corpus for the text
generator. -/
def loremWordCorpus : List String :=
  ["lorem", "ipsum", "dolor", "sit", "amet"]

/-- Modelled from the spec: the canonical fixed paragraphs of the text
generator. -/
def loremParagraphCorpus : List String :=
  ["Lorem ipsum dolor sit amet.",
   "Sed do eiusmod tempor incididunt ut labore.",
   "Ut enim ad minim veniam quis nostrud."]

/-- Take `n` elements from `xs`, cycling when `n` exceeds the corpus
length. -/
def cycleTake (xs : List String) (n : Nat) : List String :=
  (List.range n).map (fun i => xs.getD (i % xs.length) "")

/-- Modelled from the spec: `utils.Lorem`, the Text Generator, as invoked
by the source — `utils.Lorem(stmt.count, stmt.method)` takes only a count
and a method string.  Mode "w" emits `count` words space-separated, "b"
emits `count` plain paragraphs separated by a blank line, "p" wraps each
paragraph in HTML paragraph markup; `count <= 0` yields the empty string;
any other method fails with UnknownMode. -/
def utilsLorem (count : Int) (method : String) : Except TemplateError String :=
  if method = "w" then
    .ok (String.intercalate " " (cycleTake loremWordCorpus count.toNat))
  else if method = "p" then
    .ok (String.intercalate "\n"
      ((cycleTake loremParagraphCorpus count.toNat).map (fun s => "<p>" ++ s ++ "</p>")))
  else if method = "b" then
    .ok (String.intercalate "\n\n" (cycleTake loremParagraphCorpus count.toNat))
  else
    .error { kind := .unknownMode,
             message := "unknown lorem method " ++ method,
             position := none }

/-- Modelled from the spec: the Renderer output sink.  `WriteString`
returns the count written and an error flag; `failWrites` models a sink
whose write operation fails (writing nothing). -/
structure Renderer where
  out : String
  failWrites : Bool
  deriving DecidableEq

def Renderer.WriteString (r : Renderer) (s : String) : Renderer × Nat × Bool :=
  if r.failWrites then (r, 0, true)
  else ({ r with out := r.out ++ s }, s.length, false)

/-- LoremStmt.Execute from lorem.go: call `utils.Lorem(stmt.count,
stmt.method)`, propagate its error, otherwise write the text and discard
the result of WriteString, returning nil. -/
def LoremStmt.Execute (stmt : LoremStmt) (r : Renderer) : Except TemplateError Renderer :=
  match utilsLorem stmt.count stmt.method with
  | .error err => .error err
  | .ok lorem => .ok (r.WriteString lorem).1

/-- Modelled from the spec: comment.go defines no Execute for CommentStmt,
and the rendering engine (outside src/) treats such a statement as a
no-op — "Execution: a no-op — writes nothing to the renderer." -/
def CommentStmt.Execute (_stmt : CommentStmt) (r : Renderer) : Except TemplateError Renderer :=
  .ok r

/-- loremParser from lorem.go, with explicit state passing for the
argument sub-parser.  The returned Parser is the final state of the
argument sub-parser. -/
def loremParser (p : Parser) (args : Parser) : Except TemplateError (LoremStmt × Parser) :=
  let location := p.Current
  let m1 := args.Match .integer
  let count : Int :=
    match m1.1 with
    | some countToken => tokenInteger countToken
    | none => 1
  let m2 := m1.2.Match .name
  let methodRes : Except TemplateError String :=
    match m2.1 with
    | some methodToken =>
        if methodToken.val ≠ "w" ∧ methodToken.val ≠ "p" ∧ methodToken.val ≠ "b" then
          .error (m2.2.Error "lorem-method must be either 'w', 'p' or 'b'.")
        else
          .ok methodToken.val
    | none => .ok "b"
  match methodRes with
  | .error e => .error e
  | .ok method =>
      let m3 := m2.2.MatchName "random"
      let random := m3.1.isSome
      if !m3.2.End then
        .error (m3.2.Error "Malformed lorem-tag args.")
      else
        .ok ({ Location := location, count := count, method := method, random := random }, m3.2)

/-- commentParser from comment.go, with explicit state passing for the
outer parser.  The returned Parser is the outer parser after the body has
been skipped. -/
def commentParser (p : Parser) (args : Parser) : Except TemplateError (CommentStmt × Parser) :=
  let commentNode : CommentStmt := { Location := p.Current }
  match p.SkipUntil "endcomment" with
  | .error err => .error err
  | .ok p2 =>
      if !args.End then
        .error (args.Error "Tag 'comment' does not take any argument.")
      else
        .ok (commentNode, p2)

/-- A registered statement node: either tag's node. -/
inductive Statement where
  | lorem : LoremStmt → Statement
  | comment : CommentStmt → Statement

/-- The type of registered statement-parsing functions. -/
abbrev ParserFn : Type :=
  Parser → Parser → Except TemplateError (Statement × Parser)

/-- The modelled statement set, a name-to-function table. -/
abbrev StatementSet : Type :=
  List (String × ParserFn)

/-- Modelled from the spec: `register(name, parserFn)` of the Statement
Registry (section 4.1) — fails with DuplicateRegistration if the name is
already bound, leaving the registry unchanged; otherwise binds it. -/
def Register (s : StatementSet) (name : String) (f : ParserFn) : Except TemplateError StatementSet :=
  if s.any (fun e => e.1 == name) then
    .error { kind := .duplicateRegistration,
             message := "statement " ++ name ++ " already registered",
             position := none }
  else
    .ok (s ++ [(name, f)])

/-- Modelled from the spec: `lookup(name)` of the Statement Registry. -/
def Lookup (s : StatementSet) (name : String) : Option ParserFn :=
  (s.find? (fun e => e.1 == name)).map (fun e => e.2)

/-- loremParser wrapped to the registry's function type. -/
def loremParserFn : ParserFn := fun p args =>
  (loremParser p args).map (fun r => (Statement.lorem r.1, r.2))

/-- commentParser wrapped to the registry's function type. -/
def commentParserFn : ParserFn := fun p args =>
  (commentParser p args).map (fun r => (Statement.comment r.1, r.2))

/-- The init function of lorem.go: `_ = All.Register("lorem",
loremParser)` — the Register result is discarded, so a failed
registration leaves the set unchanged. -/
def initLorem (all : StatementSet) : StatementSet :=
  match Register all "lorem" loremParserFn with
  | .ok s => s
  | .error _ => all

/-- The init function of comment.go: `_ = All.Register("comment",
commentParser)` — the Register result is discarded. -/
def initComment (all : StatementSet) : StatementSet :=
  match Register all "comment" commentParserFn with
  | .ok s => s
  | .error _ => all

/- Concrete tokens used by closed theorems below. -/

def loremTagTok : Token := { kind := .name, val := "lorem", line := 1, col := 3 }

def commentTagTok : Token := { kind := .name, val := "comment", line := 1, col := 3 }

def endcommentTok : Token := { kind := .endTag, val := "endcomment", line := 1, col := 30 }

def twoTok : Token := { kind := .integer, val := "2", line := 1, col := 9 }

def xTok : Token := { kind := .name, val := "x", line := 1, col := 11 }

def randomTok : Token := { kind := .name, val := "random", line := 1, col := 13 }

def qTok : Token := { kind := .name, val := "q", line := 2, col := 5 }

/-- The registry after both tag modules have loaded once. -/
def registryBoth : StatementSet := initComment (initLorem [])

/-- Claim C1: the claim says Execute invokes the Text Generator with all
three stored fields so that output depends on the randomize flag; the
source calls `utils.Lorem(stmt.count, stmt.method)` only, so execution is
identical for `random := true` and `random := false` on every renderer —
the stored flag never influences the result. -/
theorem lorem_execute_ignores_random (location : Option Token) (count : Int)
    (method : String) (r : Renderer) :
    LoremStmt.Execute { Location := location, count := count, method := method, random := true } r
      = LoremStmt.Execute { Location := location, count := count, method := method, random := false } r :=
  rfl

/-- Claim C2, counterexample: for the argument token sequence consisting
solely of the bare name `random`, the lorem parsing function does not
succeed — `args.Match(Name)` consumes `random` as the mode argument and
rejects it, so parsing fails with the malformed-arguments mode error. -/
theorem lorem_bare_random_rejected_cex :
    loremParser { tokens := [loremTagTok], idx := 0 } { tokens := [randomTok], idx := 0 }
      = .error { kind := .malformedArguments,
                 message := "lorem-method must be either 'w', 'p' or 'b'.",
                 position := none } :=
  rfl

/-- Claim C2, amended: count and mode are each optional, but `random` is
not independent of mode — for any outer parser and any source position,
an argument list consisting solely of the bare name `random` is consumed
by the mode match and rejected with a MalformedArguments error. -/
theorem lorem_bare_random_rejected (p : Parser) (l c : Nat) :
    loremParser p { tokens := [{ kind := .name, val := "random", line := l, col := c }], idx := 0 }
      = .error { kind := .malformedArguments,
                 message := "lorem-method must be either 'w', 'p' or 'b'.",
                 position := none } :=
  rfl

/-- Claim C3: with an empty argument list the lorem parsing function
succeeds with count=1, method="b" (plain-paragraph), random=false; with
argument tokens `3 p random` it succeeds with count=3, method="p"
(html-paragraph), random=true, and the argument sub-parser is at end when
the node is returned. -/
theorem lorem_defaults_and_explicit_args (p : Parser) (l₁ c₁ l₂ c₂ l₃ c₃ : Nat) :
    loremParser p { tokens := [], idx := 0 }
        = .ok ({ Location := p.Current, count := 1, method := "b", random := false },
               { tokens := [], idx := 0 })
    ∧ loremParser p { tokens := [{ kind := .integer, val := "3", line := l₁, col := c₁ },
                                 { kind := .name, val := "p", line := l₂, col := c₂ },
                                 { kind := .name, val := "random", line := l₃, col := c₃ }],
                      idx := 0 }
        = .ok ({ Location := p.Current, count := 3, method := "p", random := true },
               { tokens := [{ kind := .integer, val := "3", line := l₁, col := c₁ },
                            { kind := .name, val := "p", line := l₂, col := c₂ },
                            { kind := .name, val := "random", line := l₃, col := c₃ }],
                 idx := 3 })
    ∧ Parser.End { tokens := [{ kind := .integer, val := "3", line := l₁, col := c₁ },
                              { kind := .name, val := "p", line := l₂, col := c₂ },
                              { kind := .name, val := "random", line := l₃, col := c₃ }],
                   idx := 3 } = true :=
  ⟨rfl, rfl, rfl⟩

/-- Claim C4, counterexample: for argument tokens `2 x random` with the
invalid mode name `x` at column 11, the error is positioned at (1, 13) —
the token after `x` — not at `x` itself, because `args.Match(Name)`
consumed `x` before `args.Error` read the current token. -/
theorem lorem_bad_mode_position_cex :
    loremParser { tokens := [loremTagTok], idx := 0 } { tokens := [twoTok, xTok, randomTok], idx := 0 }
      = .error { kind := .malformedArguments,
                 message := "lorem-method must be either 'w', 'p' or 'b'.",
                 position := some (1, 13) }
    ∧ (xTok.line, xTok.col) = (1, 11) :=
  ⟨rfl, rfl⟩

/-- Claim C4, amended: for every argument list whose mode token is a
bare name outside {"w","p","b"} — an optional count token (`pre` empty or
a single integer token), then the invalid mode name, then any remaining
tokens — the lorem parsing function returns a MalformedArguments error
and no node, but the error is positioned at the argument sub-parser's
current token after the offending mode token was consumed (the token
following it, or absent when the mode token was last). -/
theorem lorem_bad_mode_error (p : Parser) (pre : List Token) (tm : Token) (rest : List Token)
    (hpre : pre = [] ∨ ∃ tc, pre = [tc] ∧ tc.kind = TokenKind.integer)
    (hm : tm.kind = .name)
    (hw : tm.val ≠ "w") (hp : tm.val ≠ "p") (hb : tm.val ≠ "b") :
    loremParser p { tokens := pre ++ tm :: rest, idx := 0 }
      = .error { kind := .malformedArguments,
                 message := "lorem-method must be either 'w', 'p' or 'b'.",
                 position := Parser.currentPos { tokens := pre ++ tm :: rest, idx := pre.length + 1 } } := by
  rcases hpre with h₀ | ⟨tc, h₁, hk⟩
  · subst h₀
    unfold loremParser Parser.Match Parser.Current Parser.Error Parser.advance
    simp [hm, hw, hp, hb]
  · subst h₁
    unfold loremParser Parser.Match Parser.Current Parser.Error Parser.advance
    simp [hk, hm, hw, hp, hb]

/-- Witness for claim C4's amended theorem at the concrete argument
tokens `2 q random`. -/
theorem lorem_bad_mode_error_witness :
    loremParser { tokens := [loremTagTok], idx := 0 } { tokens := [twoTok, qTok, randomTok], idx := 0 }
      = .error { kind := .malformedArguments,
                 message := "lorem-method must be either 'w', 'p' or 'b'.",
                 position := Parser.currentPos { tokens := [twoTok, qTok, randomTok], idx := 2 } } :=
  lorem_bad_mode_error { tokens := [loremTagTok], idx := 0 } [twoTok] qTok [randomTok]
    (Or.inr ⟨twoTok, rfl, rfl⟩) rfl (by decide) (by decide) (by decide)

/-- Claim C5: when no `endcomment` end marker occurs in the remaining
outer token stream, the comment parsing function fails with an
UnterminatedBlock error positioned at the comment's opening tag (the
outer parser's current token at entry) and returns no node. -/
theorem comment_unterminated_error (p args : Parser) (topen : Token)
    (hcur : p.Current = some topen)
    (hnone : (p.tokens.drop p.idx).findIdx? (isEndTagFor "endcomment") = none) :
    commentParser p args
      = .error { kind := .unterminatedBlock,
                 message := "unterminated block, missing end marker endcomment",
                 position := some (topen.line, topen.col) } := by
  unfold commentParser Parser.SkipUntil
  rw [hnone]
  simp [Parser.currentPos, hcur]

/-- Witness for claim C5 on a concrete unterminated comment. -/
theorem comment_unterminated_error_witness :
    commentParser { tokens := [commentTagTok, xTok], idx := 0 } { tokens := [], idx := 0 }
      = .error { kind := .unterminatedBlock,
                 message := "unterminated block, missing end marker endcomment",
                 position := some (1, 3) } :=
  comment_unterminated_error { tokens := [commentTagTok, xTok], idx := 0 }
    { tokens := [], idx := 0 } commentTagTok rfl rfl

/-- Claim C6: when the end marker is found but the comment tag's argument
sub-parser is not at end, the comment parsing function fails with the
MalformedArguments error built by the argument sub-parser and returns no
node. -/
theorem comment_extra_args_error (p args : Parser) (j : Nat)
    (hfound : (p.tokens.drop p.idx).findIdx? (isEndTagFor "endcomment") = some j)
    (hargs : args.End = false) :
    commentParser p args
      = .error (args.Error "Tag 'comment' does not take any argument.") := by
  unfold commentParser Parser.SkipUntil
  rw [hfound]
  simp [hargs]

/-- Witness for claim C6 on a concrete comment tag given one argument. -/
theorem comment_extra_args_error_witness :
    commentParser { tokens := [commentTagTok, endcommentTok], idx := 0 } { tokens := [xTok], idx := 0 }
      = .error (Parser.Error { tokens := [xTok], idx := 0 }
          "Tag 'comment' does not take any argument.") :=
  comment_extra_args_error { tokens := [commentTagTok, endcommentTok], idx := 0 }
    { tokens := [xTok], idx := 0 } 1 rfl rfl

/-- Claim C7: executing a CommentStmt is a no-op — it returns the
renderer unchanged (nothing written) — and the node retains no body
content: two CommentStmt with the same position are equal, since position
is the only stored data. -/
theorem comment_execute_noop (stmt other : CommentStmt) (r : Renderer)
    (hpos : stmt.Position = other.Position) :
    stmt.Execute r = .ok r ∧ stmt = other := by
  refine ⟨rfl, ?_⟩
  cases stmt
  cases other
  simpa [CommentStmt.Position] using hpos

/-- Witness for claim C7 on a concrete CommentStmt and renderer. -/
theorem comment_execute_noop_witness :
    CommentStmt.Execute { Location := some commentTagTok } { out := "", failWrites := false }
        = .ok { out := "", failWrites := false }
    ∧ ({ Location := some commentTagTok } : CommentStmt)
        = ({ Location := some commentTagTok } : CommentStmt) :=
  comment_execute_noop { Location := some commentTagTok } { Location := some commentTagTok }
    { out := "", failWrites := false } rfl

/-- Claim C8: every successful run of either tag parsing function returns
a node whose Position is the outer parser's current token as captured at
function entry — the argument matching and the body skip never touch it. -/
theorem parsed_position_is_entry_current :
    (∀ (p args : Parser) (stmt : LoremStmt) (a₂ : Parser),
        loremParser p args = .ok (stmt, a₂) → stmt.Position = p.Current)
    ∧ (∀ (p args : Parser) (stmt : CommentStmt) (p₂ : Parser),
        commentParser p args = .ok (stmt, p₂) → stmt.Position = p.Current) := by
  constructor
  · intro p args stmt a₂ h
    simp only [loremParser] at h
    split at h
    · exact absurd h (by simp)
    · split at h
      · exact absurd h (by simp)
      · simp only [Except.ok.injEq, Prod.mk.injEq] at h
        rw [← h.1]
        rfl
  · intro p args stmt p₂ h
    simp only [commentParser] at h
    split at h
    · exact absurd h (by simp)
    · split at h
      · exact absurd h (by simp)
      · simp only [Except.ok.injEq, Prod.mk.injEq] at h
        rw [← h.1]
        rfl

/-- Witness for claim C8: both parsers run successfully on concrete
inputs and the returned nodes carry the entry-time current token. -/
theorem parsed_position_is_entry_current_witness :
    LoremStmt.Position { Location := Parser.Current { tokens := [loremTagTok], idx := 0 },
                         count := 1, method := "b", random := false }
        = Parser.Current { tokens := [loremTagTok], idx := 0 }
    ∧ CommentStmt.Position { Location := Parser.Current { tokens := [commentTagTok, xTok, endcommentTok], idx := 0 } }
        = Parser.Current { tokens := [commentTagTok, xTok, endcommentTok], idx := 0 } :=
  ⟨parsed_position_is_entry_current.1 { tokens := [loremTagTok], idx := 0 } { tokens := [], idx := 0 }
      _ { tokens := [], idx := 0 } rfl,
   parsed_position_is_entry_current.2 { tokens := [commentTagTok, xTok, endcommentTok], idx := 0 }
      { tokens := [], idx := 0 } _ { tokens := [commentTagTok, xTok, endcommentTok], idx := 3 } rfl⟩

/-- Claim C9: whenever text generation succeeds, LoremStmt.Execute
returns success and the result of the renderer's write operation is
discarded — the returned value is .ok of the post-write renderer even
when the write fails. -/
theorem lorem_execute_ok (stmt : LoremStmt) (r : Renderer) (s : String)
    (h : utilsLorem stmt.count stmt.method = .ok s) :
    stmt.Execute r = .ok (r.WriteString s).1 := by
  unfold LoremStmt.Execute
  rw [h]

/-- Witness for claim C9: a renderer whose writes fail still gets .ok
from Execute. -/
theorem lorem_execute_ok_witness :
    LoremStmt.Execute { Location := none, count := 1, method := "b", random := false }
        { out := "", failWrites := true }
      = .ok { out := "", failWrites := true } :=
  lorem_execute_ok { Location := none, count := 1, method := "b", random := false }
    { out := "", failWrites := true } "Lorem ipsum dolor sit amet." rfl

/-- Claim C10: when "lorem" or "comment" is already bound, registration
fails with DuplicateRegistration, yet each module's init discards that
error: the statement set is unchanged and the earlier binding stays
active. -/
theorem init_discards_duplicate (s : StatementSet) (f g : ParserFn)
    (hf : Lookup s "lorem" = some f) (hg : Lookup s "comment" = some g) :
    (∃ e, Register s "lorem" loremParserFn = .error e)
    ∧ (∃ e, Register s "comment" commentParserFn = .error e)
    ∧ initLorem s = s ∧ initComment s = s
    ∧ Lookup (initLorem s) "lorem" = some f
    ∧ Lookup (initComment s) "comment" = some g := by
  have hanyL : s.any (fun e => e.1 == "lorem") = true := by
    unfold Lookup at hf
    cases hfind : s.find? (fun e => e.1 == "lorem") with
    | none => rw [hfind] at hf; simp at hf
    | some e =>
        have hpe := List.find?_some hfind
        exact List.any_eq_true.mpr ⟨e, List.mem_of_find?_eq_some hfind, hpe⟩
  have hanyC : s.any (fun e => e.1 == "comment") = true := by
    unfold Lookup at hg
    cases hfind : s.find? (fun e => e.1 == "comment") with
    | none => rw [hfind] at hg; simp at hg
    | some e =>
        have hpe := List.find?_some hfind
        exact List.any_eq_true.mpr ⟨e, List.mem_of_find?_eq_some hfind, hpe⟩
  have hregL : Register s "lorem" loremParserFn
      = .error { kind := .duplicateRegistration,
                 message := "statement lorem already registered", position := none } := by
    unfold Register
    rw [if_pos hanyL]
    rfl
  have hregC : Register s "comment" commentParserFn
      = .error { kind := .duplicateRegistration,
                 message := "statement comment already registered", position := none } := by
    unfold Register
    rw [if_pos hanyC]
    rfl
  have hiL : initLorem s = s := by unfold initLorem; rw [hregL]
  have hiC : initComment s = s := by unfold initComment; rw [hregC]
  exact ⟨⟨_, hregL⟩, ⟨_, hregC⟩, hiL, hiC, by rw [hiL]; exact hf, by rw [hiC]; exact hg⟩

/-- Witness for claim C10 on the registry holding both tags already. -/
theorem init_discards_duplicate_witness :
    (∃ e, Register registryBoth "lorem" loremParserFn = .error e)
    ∧ (∃ e, Register registryBoth "comment" commentParserFn = .error e)
    ∧ initLorem registryBoth = registryBoth ∧ initComment registryBoth = registryBoth
    ∧ Lookup (initLorem registryBoth) "lorem" = some loremParserFn
    ∧ Lookup (initComment registryBoth) "comment" = some commentParserFn :=
  init_discards_duplicate registryBoth loremParserFn commentParserFn rfl rfl

end Gonja
